import Mathlib

set_option maxRecDepth 10000

/-!
Shallow embedding of the messaging and booking-negotiation core of the
djhub application (source files `app.py`, `messages.py`, `models.py`).
Database tables are lists kept in insertion order; primary keys are
auto-incrementing naturals carried in the `DB` record; timestamps are
naturals (`DB.now`).  Each HTTP route is a pure function from a `DB`
to a new `DB` together with an optional error class.
-/

namespace DJHub

/-- Status column of `BookingRequest` (`models.py`): `pending`,
`accepted` or `declined`. -/
inductive BStatus
  | pending
  | accepted
  | declined
deriving DecidableEq, Repr

/-- Error taxonomy of the routes: `abort(404)`, `abort(403)`,
state-machine conflicts (flash + redirect without write), input
validation failures and `abort(400)`. -/
inductive Err
  | notFound
  | forbidden
  | conflict
  | validationError
  | badRequest
deriving DecidableEq, Repr

/-- `Conversation` model (`models.py`): unordered user pair stored as
`(user1_id, user2_id)` plus timestamps. -/
structure Conversation where
  id : Nat
  user1_id : Nat
  user2_id : Nat
  created_at : Nat
  last_message_at : Nat
deriving DecidableEq, Repr

/-- `Message` model (`models.py`): body plus one read flag per
participant slot. -/
structure Message where
  id : Nat
  conversation_id : Nat
  sender_id : Nat
  body : String
  created_at : Nat
  read_by_user1 : Bool
  read_by_user2 : Bool
deriving DecidableEq, Repr

/-- `BookingRequest` model (`models.py`). -/
structure BookingRequest where
  id : Nat
  listing_id : Nat
  requester_id : Nat
  conversation_id : Nat
  status : BStatus
deriving DecidableEq, Repr

/-- `Listing` model (`models.py`), restricted to the fields the booking
routes read.  `profile_user_id` models `listing.profile.user_id`; it is
`none` when `listing.profile` is missing. -/
structure Listing where
  id : Nat
  title : String
  is_archived : Bool
  profile_user_id : Option Nat
deriving DecidableEq, Repr

/-- `ListingNotification` model (`models.py`). -/
structure ListingNotification where
  id : Nat
  listing_id : Nat
  recipient_id : Nat
  message : String
  is_read : Bool
deriving DecidableEq, Repr

/-- `Users` model (`models.py`), restricted to the fields the booking
routes read. -/
structure UserRec where
  id : Nat
  username : String
deriving DecidableEq, Repr

/-- The relational store: each table as a list in insertion order, the
auto-increment counters, and the current clock (`datetime.utcnow`). -/
structure DB where
  users : List UserRec
  conversations : List Conversation
  messages : List Message
  bookings : List BookingRequest
  listings : List Listing
  notifications : List ListingNotification
  nextConvoId : Nat
  nextMsgId : Nat
  nextBookingId : Nat
  nextNotifId : Nat
  now : Nat
deriving DecidableEq, Repr

/-- `MAX_MESSAGE_LENGTH = 1000` (`app.py` line 70). -/
def MAX_MESSAGE_LENGTH : Nat := 1000

/-- `Users.query.get(id)`. -/
def findUser (db : DB) (uid : Nat) : Option UserRec :=
  db.users.find? (fun u => u.id == uid)

/-- `Conversation.query.get(id)`. -/
def findConvo (db : DB) (cid : Nat) : Option Conversation :=
  db.conversations.find? (fun c => c.id == cid)

/-- `Conversation.query.filter_by(user1_id=u1, user2_id=u2).first()`. -/
def findConvoPair (db : DB) (u1 u2 : Nat) : Option Conversation :=
  db.conversations.find? (fun c => c.user1_id == u1 && c.user2_id == u2)

/-- `Listing.query.get(id)`. -/
def findListing (db : DB) (lid : Nat) : Option Listing :=
  db.listings.find? (fun l => l.id == lid)

/-- `BookingRequest.query.get(id)`. -/
def findBooking (db : DB) (bid : Nat) : Option BookingRequest :=
  db.bookings.find? (fun r => r.id == bid)

/-- Write back a conversation row by primary key. -/
def putConvo (db : DB) (c : Conversation) : DB :=
  { db with conversations :=
      db.conversations.map (fun x => if x.id == c.id then c else x) }

/-- Python `str.strip()` on the underlying character list: drop
whitespace from both ends. -/
def pyStrip (s : String) : String :=
  String.mk (((s.data.dropWhile Char.isWhitespace).reverse.dropWhile
      Char.isWhitespace).reverse)

/-- `sender_is_user1` (`app.py` line 1434). -/
def sender_is_user1 (convo : Conversation) (sender_id : Nat) : Bool :=
  convo.user1_id == sender_id

/-- `is_participant` (`app.py` line 1431): membership test
`user_id in (convo.user1_id, convo.user2_id)`. -/
def is_participant (convo : Conversation) (user_id : Nat) : Bool :=
  user_id == convo.user1_id || user_id == convo.user2_id

/-- `make_message` (`app.py` lines 1437-1449): build the message with
the sender's read flag true and the other flag false, and bump the
conversation's `last_message_at` to the current time.  Returns the new
message row together with the updated conversation row. -/
def make_message (convo : Conversation) (sender_id : Nat) (body : String)
    (msgId now : Nat) : Message × Conversation :=
  let m : Message :=
    if sender_is_user1 convo sender_id then
      { id := msgId, conversation_id := convo.id, sender_id := sender_id,
        body := body, created_at := now,
        read_by_user1 := true, read_by_user2 := false }
    else
      { id := msgId, conversation_id := convo.id, sender_id := sender_id,
        body := body, created_at := now,
        read_by_user1 := false, read_by_user2 := true }
  (m, { convo with last_message_at := now })

/-- The per-row update of `mark_conversation_read`: the bulk
`Message.query.filter_by(conversation_id=convo.id).update({...})`
touches exactly the rows of this conversation. -/
def markReadFlag (convo : Conversation) (user_id : Nat) (m : Message) :
    Message :=
  if m.conversation_id == convo.id then
    if sender_is_user1 convo user_id then { m with read_by_user1 := true }
    else { m with read_by_user2 := true }
  else m

/-- `mark_conversation_read` (`app.py` lines 1451-1456): set the flag of
`user_id`'s slot on every message of the conversation. -/
def mark_conversation_read (db : DB) (convo : Conversation)
    (user_id : Nat) : DB :=
  { db with messages := db.messages.map (markReadFlag convo user_id) }

/-- `get_or_create_conversation` (`app.py` lines 1459-1477): reject the
self pair, canonicalise with `sorted`, return the existing row when
present, otherwise insert a fresh row.  (The `IntegrityError` branch is
unreachable in this sequential model.) -/
def get_or_create_conversation (db : DB) (user_a_id user_b_id : Nat) :
    DB × Except Err Conversation :=
  if user_a_id == user_b_id then (db, .error .validationError)
  else
    let u1 := min user_a_id user_b_id
    let u2 := max user_a_id user_b_id
    match findConvoPair db u1 u2 with
    | some convo => (db, .ok convo)
    | none =>
      let convo : Conversation :=
        { id := db.nextConvoId, user1_id := u1, user2_id := u2,
          created_at := db.now, last_message_at := db.now }
      ({ db with conversations := db.conversations ++ [convo],
                 nextConvoId := db.nextConvoId + 1 }, .ok convo)

/-- POST branch of `view_conversation` (`app.py` lines 1613-1632):
look up the conversation, check participation, strip and validate the
body, then append the message built by `make_message`. -/
def post_message (db : DB) (actor conversation_id : Nat)
    (raw_body : String) : DB × Option Err :=
  match findConvo db conversation_id with
  | none => (db, some .notFound)
  | some convo =>
    if !is_participant convo actor then (db, some .forbidden)
    else
      let body := pyStrip raw_body
      if body.length == 0 then (db, some .validationError)
      else if MAX_MESSAGE_LENGTH < body.length then
        (db, some .validationError)
      else
        let mc := make_message convo actor body db.nextMsgId db.now
        let db1 := putConvo db mc.2
        ({ db1 with messages := db1.messages ++ [mc.1],
                    nextMsgId := db1.nextMsgId + 1 }, none)

/-- The ordering contract of `order_by(Message.created_at.asc())`: the
query returns some permutation of the rows that is nondecreasing in
`created_at`.  The source gives no secondary sort key, so the relative
order of rows sharing a timestamp is left unspecified by SQL and the
contract admits every such permutation. -/
def SqlTimeOrdered (rows out : List Message) : Prop :=
  out.Perm rows ∧ out.Pairwise (fun a b => a.created_at ≤ b.created_at)

/-- Admissible results of
`convo.messages.order_by(Message.created_at.asc()).all()`
(`app.py` line 1634) for one conversation: any `created_at`-sorted
permutation of the conversation's rows. -/
def listByConversationSpec (db : DB) (conversation_id : Nat)
    (out : List Message) : Prop :=
  SqlTimeOrdered
    (db.messages.filter (fun m => m.conversation_id == conversation_id))
    out

/-- GET branch of `view_conversation` (`app.py` lines 1613-1657):
look up the conversation, check participation, mark every message read
for the viewer. -/
def view_conversation_get (db : DB) (actor conversation_id : Nat) :
    DB × Option Err :=
  match findConvo db conversation_id with
  | none => (db, some .notFound)
  | some convo =>
    if !is_participant convo actor then (db, some .forbidden)
    else (mark_conversation_read db convo actor, none)

/-- `start_conversation` (`app.py` lines 1576-1610).  Note the source
creates (and commits) the conversation before validating the body, so a
rejected body can still leave a freshly created conversation behind. -/
def start_conversation (db : DB) (actor recipient_id : Nat)
    (raw_body : String) : DB × Option Err :=
  let body := pyStrip raw_body
  if recipient_id == actor then (db, some .validationError)
  else
    match findUser db recipient_id with
    | none => (db, some .notFound)
    | some _ =>
      match get_or_create_conversation db actor recipient_id with
      | (db1, .error e) => (db1, some e)
      | (db1, .ok convo) =>
        if body.length == 0 then (db1, some .validationError)
        else if MAX_MESSAGE_LENGTH < body.length then
          (db1, some .validationError)
        else
          let mc := make_message convo actor body db1.nextMsgId db1.now
          let db2 := putConvo db1 mc.2
          ({ db2 with messages := db2.messages ++ [mc.1],
                      nextMsgId := db2.nextMsgId + 1 }, none)

/-- `request_booking` (`app.py` lines 1480-1521): reject archived
listings, ownerless listings, self-requests and duplicate requests;
otherwise obtain the owner-requester conversation and append a pending
`BookingRequest` plus a `ListingNotification` for the owner.  No message
is posted on this path. -/
def request_booking (db : DB) (actor listing_id : Nat) : DB × Option Err :=
  match findUser db actor with
  | none => (db, some .forbidden)
  | some u =>
    match findListing db listing_id with
    | none => (db, some .notFound)
    | some listing =>
      if listing.is_archived then (db, some .conflict)
      else
        match listing.profile_user_id with
        | none => (db, some .notFound)
        | some owner_id =>
          if owner_id == actor then (db, some .forbidden)
          else if db.bookings.any (fun r =>
              r.listing_id == listing.id && r.requester_id == actor) then
            (db, some .conflict)
          else
            match get_or_create_conversation db actor owner_id with
            | (db1, .error e) => (db1, some e)
            | (db1, .ok convo) =>
              let booking : BookingRequest :=
                { id := db1.nextBookingId, listing_id := listing.id,
                  requester_id := actor, conversation_id := convo.id,
                  status := .pending }
              let notif : ListingNotification :=
                { id := db1.nextNotifId, listing_id := listing.id,
                  recipient_id := owner_id,
                  message := u.username ++ " would like to book your event.",
                  is_read := false }
              ({ db1 with bookings := db1.bookings ++ [booking],
                          notifications := db1.notifications ++ [notif],
                          nextBookingId := db1.nextBookingId + 1,
                          nextNotifId := db1.nextNotifId + 1 }, none)

/-- The validated `action` form field of `respond_booking`; any other
string is rejected with `abort(400)` before the status check. -/
inductive BAction
  | accept
  | decline
deriving DecidableEq, Repr

/-- Per-row update of the accept branch of `respond_booking`
(`app.py` lines 1540-1549): the responded booking becomes `accepted`;
every other booking of the same listing that is still `pending` becomes
`declined`; everything else is untouched. -/
def acceptUpdate (bookingId listingId : Nat) (r : BookingRequest) :
    BookingRequest :=
  if r.id == bookingId then { r with status := .accepted }
  else if r.listing_id == listingId && r.status == .pending then
    { r with status := .declined }
  else r

/-- `respond_booking` (`app.py` lines 1524-1572): owner-only response to
a pending booking.  `accept` archives the listing, auto-declines the
competing pending requests, posts a reply message and notifies the
requester; `decline` only flips the status and posts the reply. -/
def respond_booking (db : DB) (actor booking_id : Nat) (action : BAction) :
    DB × Option Err :=
  match findBooking db booking_id with
  | none => (db, some .notFound)
  | some booking =>
    match findListing db booking.listing_id with
    | none => (db, some .notFound)
    | some listing =>
      match listing.profile_user_id with
      | none => (db, some .forbidden)
      | some owner_id =>
        if !(actor == owner_id) then (db, some .forbidden)
        else if !(booking.status == .pending) then (db, some .conflict)
        else
          match action with
          | .accept =>
            match findConvo db booking.conversation_id with
            | none => (db, some .notFound)
            | some convo =>
              let bookings1 :=
                db.bookings.map (acceptUpdate booking.id listing.id)
              let listings1 := db.listings.map (fun l =>
                if l.id == listing.id then { l with is_archived := true }
                else l)
              let reply :=
                "Your booking request for \"" ++ listing.title ++
                  "\" was accepted."
              let mc := make_message convo actor reply db.nextMsgId db.now
              let notif : ListingNotification :=
                { id := db.nextNotifId, listing_id := listing.id,
                  recipient_id := booking.requester_id,
                  message := "Your booking request for \"" ++
                    listing.title ++ "\" was accepted.",
                  is_read := false }
              let db1 := putConvo
                { db with bookings := bookings1, listings := listings1 }
                mc.2
              ({ db1 with messages := db1.messages ++ [mc.1],
                          notifications := db1.notifications ++ [notif],
                          nextMsgId := db1.nextMsgId + 1,
                          nextNotifId := db1.nextNotifId + 1 }, none)
          | .decline =>
            match findConvo db booking.conversation_id with
            | none => (db, some .notFound)
            | some convo =>
              let bookings1 := db.bookings.map (fun r =>
                if r.id == booking.id then { r with status := .declined }
                else r)
              let reply :=
                "Your booking request for \"" ++ listing.title ++
                  "\" was declined."
              let mc := make_message convo actor reply db.nextMsgId db.now
              let db1 := putConvo { db with bookings := bookings1 } mc.2
              ({ db1 with messages := db1.messages ++ [mc.1],
                          nextMsgId := db1.nextMsgId + 1 }, none)

/-- One user-visible operation of the modelled core.  `tick` lets the
wall clock (`datetime.utcnow`) advance between requests. -/
inductive Op
  | tick (t : Nat)
  | startConvo (actor recipient : Nat) (body : String)
  | postMsg (actor cid : Nat) (body : String)
  | viewConvo (actor cid : Nat)
  | requestBooking (actor lid : Nat)
  | respondBooking (actor bid : Nat) (a : BAction)

/-- Run one operation, keeping the (possibly partially updated) store it
returns whether or not the request reported an error. -/
def applyOp (db : DB) : Op → DB
  | .tick t => { db with now := t }
  | .startConvo a r b => (start_conversation db a r b).1
  | .postMsg a c b => (post_message db a c b).1
  | .viewConvo a c => (view_conversation_get db a c).1
  | .requestBooking a l => (request_booking db a l).1
  | .respondBooking a b act => (respond_booking db a b act).1

/-- Run a sequence of operations. -/
def runOps (db : DB) (ops : List Op) : DB :=
  ops.foldl applyOp db

/-- Primary-key discipline of the `booking_request` table: ids are
distinct and below the auto-increment counter. -/
def BookingsOk (db : DB) : Prop :=
  (db.bookings.map (fun r => r.id)).Nodup ∧
    ∀ r ∈ db.bookings, r.id < db.nextBookingId

/-- Primary-key discipline of the `messages` table: ids strictly
increase in insertion order and stay below the auto-increment
counter. -/
def MsgIdsOrdered (db : DB) : Prop :=
  db.messages.Pairwise (fun m1 m2 => m1.id < m2.id) ∧
    ∀ m ∈ db.messages, m.id < db.nextMsgId

/-- Strict lexicographic order on messages: earlier timestamp first,
ties broken by the auto-incrementing id. -/
def lexLT (a b : Message) : Prop :=
  a.created_at < b.created_at ∨
    (a.created_at = b.created_at ∧ a.id < b.id)

/-- Sample user 1. -/
def userA : UserRec := { id := 1, username := "alice" }

/-- Sample user 2. -/
def userB : UserRec := { id := 2, username := "bob" }

/-- Sample user 3. -/
def userC : UserRec := { id := 3, username := "carol" }

/-- Sample conversation between users 1 and 2. -/
def convAB : Conversation :=
  { id := 100, user1_id := 1, user2_id := 2, created_at := 0,
    last_message_at := 0 }

/-- Sample conversation between users 2 and 3. -/
def convBC : Conversation :=
  { id := 101, user1_id := 2, user2_id := 3, created_at := 0,
    last_message_at := 0 }

/-- Sample listing 10, owned by user 2, open for requests. -/
def listW : Listing :=
  { id := 10, title := "Spring Formal", is_archived := false,
    profile_user_id := some 2 }

/-- Sample archived listing 11, owned by user 2. -/
def listX : Listing :=
  { id := 11, title := "Grad Party", is_archived := true,
    profile_user_id := some 2 }

/-- Sample message from user 1 in conversation 100. -/
def msgW1 : Message :=
  { id := 1000, conversation_id := 100, sender_id := 1, body := "hello",
    created_at := 3, read_by_user1 := true, read_by_user2 := false }

/-- Sample message from user 2 in conversation 100, sharing no
timestamp with `msgW1`. -/
def msgW2 : Message :=
  { id := 1001, conversation_id := 100, sender_id := 2, body := "yo",
    created_at := 3, read_by_user1 := false, read_by_user2 := true }

/-- Sample pending booking by user 1 on listing 10. -/
def bk1 : BookingRequest :=
  { id := 50, listing_id := 10, requester_id := 1,
    conversation_id := 100, status := .pending }

/-- Sample pending booking by user 3 on listing 10. -/
def bk2 : BookingRequest :=
  { id := 51, listing_id := 10, requester_id := 3,
    conversation_id := 101, status := .pending }

/-- Sample already-accepted booking by user 1 on listing 11. -/
def bk3 : BookingRequest :=
  { id := 60, listing_id := 11, requester_id := 1,
    conversation_id := 100, status := .accepted }

/-- Sample store: three users, one conversation, one open listing. -/
def dbW : DB :=
  { users := [userA, userB, userC], conversations := [convAB],
    messages := [], bookings := [], listings := [listW],
    notifications := [], nextConvoId := 101, nextMsgId := 1,
    nextBookingId := 1, nextNotifId := 1, now := 5 }

/-- Sample store with two messages in conversation 100. -/
def dbMsgs : DB :=
  { users := [userA, userB], conversations := [convAB],
    messages := [msgW1, msgW2], bookings := [], listings := [],
    notifications := [], nextConvoId := 101, nextMsgId := 1002,
    nextBookingId := 1, nextNotifId := 1, now := 9 }

/-- Sample store with two pending bookings competing on listing 10. -/
def dbBook : DB :=
  { users := [userA, userB, userC], conversations := [convAB, convBC],
    messages := [], bookings := [bk1, bk2], listings := [listW],
    notifications := [], nextConvoId := 102, nextMsgId := 1,
    nextBookingId := 52, nextNotifId := 1, now := 7 }

/-- Sample store with an already-accepted booking on archived
listing 11. -/
def dbTerm : DB :=
  { users := [userA, userB, userC], conversations := [convAB],
    messages := [], bookings := [bk3], listings := [listX, listW],
    notifications := [], nextConvoId := 102, nextMsgId := 1,
    nextBookingId := 61, nextNotifId := 1, now := 7 }

/-- A 1000-character body. -/
def body1000 : String := String.mk (List.replicate 1000 'a')

/-- A 1001-character body. -/
def body1001 : String := String.mk (List.replicate 1001 'a')

/-! ## Helper lemmas -/

theorem findConvo_eq {db : DB} {cid : Nat} {c : Conversation}
    (h : findConvo db cid = some c) :
    c ∈ db.conversations ∧ c.id = cid := by
  refine ⟨List.mem_of_find?_eq_some h, ?_⟩
  have hp := List.find?_some h
  simpa using hp

theorem findConvoPair_eq {db : DB} {u1 u2 : Nat} {c : Conversation}
    (h : findConvoPair db u1 u2 = some c) :
    c ∈ db.conversations ∧ c.user1_id = u1 ∧ c.user2_id = u2 := by
  refine ⟨List.mem_of_find?_eq_some h, ?_, ?_⟩ <;>
    · have hp := List.find?_some h
      simp at hp
      omega

theorem findListing_eq {db : DB} {lid : Nat} {li : Listing}
    (h : findListing db lid = some li) :
    li ∈ db.listings ∧ li.id = lid := by
  refine ⟨List.mem_of_find?_eq_some h, ?_⟩
  have hp := List.find?_some h
  simpa using hp

theorem findBooking_eq {db : DB} {bid : Nat} {b : BookingRequest}
    (h : findBooking db bid = some b) :
    b ∈ db.bookings ∧ b.id = bid := by
  refine ⟨List.mem_of_find?_eq_some h, ?_⟩
  have hp := List.find?_some h
  simpa using hp

theorem markReadFlag_idem (c : Conversation) (uid : Nat) (m : Message) :
    markReadFlag c uid (markReadFlag c uid m) = markReadFlag c uid m := by
  by_cases hc : m.conversation_id = c.id <;>
    by_cases hs : c.user1_id = uid <;>
      simp [markReadFlag, sender_is_user1, hc, hs]

theorem post_message_success (db : DB) (actor cid : Nat)
    (c : Conversation) (raw : String) (hc : findConvo db cid = some c)
    (hp : is_participant c actor = true)
    (h1 : (pyStrip raw).length ≠ 0)
    (h2 : ¬MAX_MESSAGE_LENGTH < (pyStrip raw).length) :
    (post_message db actor cid raw).2 = none ∧
    (post_message db actor cid raw).1.messages = db.messages ++
      [(make_message c actor (pyStrip raw) db.nextMsgId db.now).1] := by
  have hb : ((pyStrip raw).length == 0) = false := by simpa using h1
  simp [post_message, hc, hp, hb, h2, putConvo]

theorem respond_accept_success (db : DB) (actor bid : Nat)
    (b : BookingRequest) (li : Listing) (c : Conversation)
    (hb : findBooking db bid = some b)
    (hli : findListing db b.listing_id = some li)
    (ho : li.profile_user_id = some actor)
    (hpend : b.status = .pending)
    (hc : findConvo db b.conversation_id = some c) :
    (respond_booking db actor bid .accept).2 = none ∧
    (respond_booking db actor bid .accept).1.bookings =
      db.bookings.map (acceptUpdate b.id li.id) ∧
    (respond_booking db actor bid .accept).1.listings =
      db.listings.map (fun l =>
        if l.id == li.id then { l with is_archived := true } else l) := by
  simp [respond_booking, hb, hli, ho, hpend, hc, putConvo]

theorem bookings_eq_of_same_id {db : DB} {r b : BookingRequest}
    (hids : (db.bookings.map (fun r => r.id)).Nodup)
    (hr : r ∈ db.bookings) (hb : b ∈ db.bookings) (h : r.id = b.id) :
    r = b :=
  List.inj_on_of_nodup_map hids hr hb h

theorem acceptUpdate_id (i j : Nat) (r : BookingRequest) :
    (acceptUpdate i j r).id = r.id := by
  unfold acceptUpdate
  (repeat' split) <;> rfl

theorem acceptUpdate_listing (i j : Nat) (r : BookingRequest) :
    (acceptUpdate i j r).listing_id = r.listing_id := by
  unfold acceptUpdate
  (repeat' split) <;> rfl

theorem make_message_id (c : Conversation) (s : Nat) (b : String)
    (i t : Nat) : (make_message c s b i t).1.id = i := by
  by_cases hs : sender_is_user1 c s = true <;>
    simp [make_message, hs]

theorem markReadFlag_id (cv : Conversation) (a : Nat) (m : Message) :
    (markReadFlag cv a m).id = m.id := by
  unfold markReadFlag
  (repeat' split) <;> rfl

theorem start_conversation_effects (db : DB) (a r : Nat) (s : String) :
    (start_conversation db a r s).1.bookings = db.bookings ∧
    (start_conversation db a r s).1.nextBookingId = db.nextBookingId ∧
    (((start_conversation db a r s).1.messages = db.messages ∧
      (start_conversation db a r s).1.nextMsgId = db.nextMsgId) ∨
     (∃ m : Message, m.id = db.nextMsgId ∧
       (start_conversation db a r s).1.messages = db.messages ++ [m] ∧
       (start_conversation db a r s).1.nextMsgId = db.nextMsgId + 1)) := by
  unfold start_conversation get_or_create_conversation putConvo
  dsimp only
  cases hra : r == a with
  | true => exact ⟨rfl, rfl, Or.inl ⟨rfl, rfl⟩⟩
  | false =>
    try simp only [Bool.false_eq_true, Bool.true_eq_false, if_false, if_true]
    cases hfu : findUser db r with
    | none => exact ⟨rfl, rfl, Or.inl ⟨rfl, rfl⟩⟩
    | some u =>
      try simp only [Bool.false_eq_true, Bool.true_eq_false, if_false, if_true]
      cases har : a == r with
      | true => exact ⟨rfl, rfl, Or.inl ⟨rfl, rfl⟩⟩
      | false =>
        try simp only [Bool.false_eq_true, Bool.true_eq_false, if_false, if_true]
        cases hfp : findConvoPair db (min a r) (max a r) with
        | some cv =>
          try simp only [Bool.false_eq_true, Bool.true_eq_false, if_false, if_true]
          cases hz : (pyStrip s).length == 0 with
          | true => exact ⟨rfl, rfl, Or.inl ⟨rfl, rfl⟩⟩
          | false =>
            try simp only [Bool.false_eq_true, Bool.true_eq_false, if_false, if_true]
            by_cases hlen : MAX_MESSAGE_LENGTH < (pyStrip s).length
            · rw [if_pos hlen]
              exact ⟨rfl, rfl, Or.inl ⟨rfl, rfl⟩⟩
            · rw [if_neg hlen]
              exact ⟨rfl, rfl,
                Or.inr ⟨_, make_message_id _ _ _ _ _, rfl, rfl⟩⟩
        | none =>
          try simp only [Bool.false_eq_true, Bool.true_eq_false, if_false, if_true]
          cases hz : (pyStrip s).length == 0 with
          | true => exact ⟨rfl, rfl, Or.inl ⟨rfl, rfl⟩⟩
          | false =>
            try simp only [Bool.false_eq_true, Bool.true_eq_false, if_false, if_true]
            by_cases hlen : MAX_MESSAGE_LENGTH < (pyStrip s).length
            · rw [if_pos hlen]
              exact ⟨rfl, rfl, Or.inl ⟨rfl, rfl⟩⟩
            · rw [if_neg hlen]
              exact ⟨rfl, rfl,
                Or.inr ⟨_, make_message_id _ _ _ _ _, rfl, rfl⟩⟩

theorem post_message_effects (db : DB) (a c : Nat) (s : String) :
    (post_message db a c s).1.bookings = db.bookings ∧
    (post_message db a c s).1.nextBookingId = db.nextBookingId ∧
    (((post_message db a c s).1.messages = db.messages ∧
      (post_message db a c s).1.nextMsgId = db.nextMsgId) ∨
     (∃ m : Message, m.id = db.nextMsgId ∧
       (post_message db a c s).1.messages = db.messages ++ [m] ∧
       (post_message db a c s).1.nextMsgId = db.nextMsgId + 1)) := by
  unfold post_message putConvo
  cases hfc : findConvo db c with
  | none => exact ⟨rfl, rfl, Or.inl ⟨rfl, rfl⟩⟩
  | some cv =>
    try simp only [Bool.false_eq_true, Bool.true_eq_false, if_false, if_true]
    cases hp : is_participant cv a with
    | false => exact ⟨rfl, rfl, Or.inl ⟨rfl, rfl⟩⟩
    | true =>
      try simp only [Bool.false_eq_true, Bool.true_eq_false, if_false, if_true]
      cases hz : (pyStrip s).length == 0 with
      | true => exact ⟨rfl, rfl, Or.inl ⟨rfl, rfl⟩⟩
      | false =>
        try simp only [Bool.false_eq_true, Bool.true_eq_false, if_false, if_true]
        by_cases hlen : MAX_MESSAGE_LENGTH < (pyStrip s).length
        · rw [if_pos hlen]
          exact ⟨rfl, rfl, Or.inl ⟨rfl, rfl⟩⟩
        · rw [if_neg hlen]
          exact ⟨rfl, rfl,
            Or.inr ⟨_, make_message_id _ _ _ _ _, rfl, rfl⟩⟩

theorem view_get_effects (db : DB) (a c : Nat) :
    (view_conversation_get db a c).1.bookings = db.bookings ∧
    (view_conversation_get db a c).1.nextBookingId = db.nextBookingId ∧
    (view_conversation_get db a c).1.nextMsgId = db.nextMsgId ∧
    ((view_conversation_get db a c).1.messages = db.messages ∨
     ∃ cv, (view_conversation_get db a c).1.messages =
       db.messages.map (markReadFlag cv a)) := by
  unfold view_conversation_get mark_conversation_read
  cases hfc : findConvo db c with
  | none => exact ⟨rfl, rfl, rfl, Or.inl rfl⟩
  | some cv =>
    try simp only [Bool.false_eq_true, Bool.true_eq_false, if_false, if_true]
    cases hp : is_participant cv a with
    | false => exact ⟨rfl, rfl, rfl, Or.inl rfl⟩
    | true => exact ⟨rfl, rfl, rfl, Or.inr ⟨cv, rfl⟩⟩

theorem request_booking_effects (db : DB) (a l : Nat) :
    (request_booking db a l).1.messages = db.messages ∧
    (request_booking db a l).1.nextMsgId = db.nextMsgId ∧
    (((request_booking db a l).1.bookings = db.bookings ∧
      (request_booking db a l).1.nextBookingId = db.nextBookingId) ∨
     (∃ rk : BookingRequest, rk.id = db.nextBookingId ∧
       (request_booking db a l).1.bookings = db.bookings ++ [rk] ∧
       (request_booking db a l).1.nextBookingId =
         db.nextBookingId + 1)) := by
  unfold request_booking get_or_create_conversation
  cases hfu : findUser db a with
  | none => exact ⟨rfl, rfl, Or.inl ⟨rfl, rfl⟩⟩
  | some u =>
    try simp only [Bool.false_eq_true, Bool.true_eq_false, if_false, if_true]
    cases hfl : findListing db l with
    | none => exact ⟨rfl, rfl, Or.inl ⟨rfl, rfl⟩⟩
    | some li =>
      try simp only [Bool.false_eq_true, Bool.true_eq_false, if_false, if_true]
      cases harch : li.is_archived with
      | true => exact ⟨rfl, rfl, Or.inl ⟨rfl, rfl⟩⟩
      | false =>
        try simp only [Bool.false_eq_true, Bool.true_eq_false, if_false, if_true]
        cases ho : li.profile_user_id with
        | none => exact ⟨rfl, rfl, Or.inl ⟨rfl, rfl⟩⟩
        | some o =>
          try simp only [Bool.false_eq_true, Bool.true_eq_false, if_false, if_true]
          cases hoa : o == a with
          | true => exact ⟨rfl, rfl, Or.inl ⟨rfl, rfl⟩⟩
          | false =>
            try simp only [Bool.false_eq_true, Bool.true_eq_false, if_false, if_true]
            cases hany : db.bookings.any (fun r =>
                r.listing_id == li.id && r.requester_id == a) with
            | true => exact ⟨rfl, rfl, Or.inl ⟨rfl, rfl⟩⟩
            | false =>
              try simp only [Bool.false_eq_true, Bool.true_eq_false, if_false, if_true]
              cases hao : a == o with
              | true => exact ⟨rfl, rfl, Or.inl ⟨rfl, rfl⟩⟩
              | false =>
                try simp only [Bool.false_eq_true, Bool.true_eq_false, if_false, if_true]
                cases hfp : findConvoPair db (min a o) (max a o) with
                | some cv =>
                  exact ⟨rfl, rfl, Or.inr ⟨_, rfl, rfl, rfl⟩⟩
                | none =>
                  exact ⟨rfl, rfl, Or.inr ⟨_, rfl, rfl, rfl⟩⟩

theorem respond_booking_effects (db : DB) (a bid : Nat) (act : BAction) :
    (respond_booking db a bid act).1.nextBookingId = db.nextBookingId ∧
    ((respond_booking db a bid act).1.bookings = db.bookings ∨
     ∃ bk li, findBooking db bid = some bk ∧ bk.status = .pending ∧
       findListing db bk.listing_id = some li ∧
       ((respond_booking db a bid act).1.bookings =
          db.bookings.map (acceptUpdate bk.id li.id) ∨
        (respond_booking db a bid act).1.bookings =
          db.bookings.map (fun r =>
            if r.id == bk.id then { r with status := BStatus.declined }
            else r))) ∧
    (((respond_booking db a bid act).1.messages = db.messages ∧
      (respond_booking db a bid act).1.nextMsgId = db.nextMsgId) ∨
     (∃ m : Message, m.id = db.nextMsgId ∧
       (respond_booking db a bid act).1.messages = db.messages ++ [m] ∧
       (respond_booking db a bid act).1.nextMsgId =
         db.nextMsgId + 1)) := by
  unfold respond_booking putConvo
  cases hfb : findBooking db bid with
  | none => exact ⟨rfl, Or.inl rfl, Or.inl ⟨rfl, rfl⟩⟩
  | some bk =>
    try simp only [Bool.false_eq_true, Bool.true_eq_false, if_false, if_true]
    cases hfl : findListing db bk.listing_id with
    | none => exact ⟨rfl, Or.inl rfl, Or.inl ⟨rfl, rfl⟩⟩
    | some li =>
      try simp only [Bool.false_eq_true, Bool.true_eq_false, if_false, if_true]
      cases ho : li.profile_user_id with
      | none => exact ⟨rfl, Or.inl rfl, Or.inl ⟨rfl, rfl⟩⟩
      | some o =>
        try simp only [Bool.false_eq_true, Bool.true_eq_false, if_false, if_true]
        cases hao : a == o with
        | false => exact ⟨rfl, Or.inl rfl, Or.inl ⟨rfl, rfl⟩⟩
        | true =>
          try simp only [Bool.false_eq_true, Bool.true_eq_false, if_false, if_true]
          cases hst : bk.status == BStatus.pending with
          | false => exact ⟨rfl, Or.inl rfl, Or.inl ⟨rfl, rfl⟩⟩
          | true =>
            try simp only [Bool.false_eq_true, Bool.true_eq_false, if_false, if_true]
            have hpend : bk.status = BStatus.pending := by simpa using hst
            cases act with
            | accept =>
              cases hfc : findConvo db bk.conversation_id with
              | none => exact ⟨rfl, Or.inl rfl, Or.inl ⟨rfl, rfl⟩⟩
              | some cv =>
                exact ⟨rfl, Or.inr ⟨bk, li, rfl, hpend, hfl, Or.inl rfl⟩,
                  Or.inr ⟨_, make_message_id _ _ _ _ _, rfl, rfl⟩⟩
            | decline =>
              cases hfc : findConvo db bk.conversation_id with
              | none => exact ⟨rfl, Or.inl rfl, Or.inl ⟨rfl, rfl⟩⟩
              | some cv =>
                exact ⟨rfl, Or.inr ⟨bk, li, rfl, hpend, hfl, Or.inr rfl⟩,
                  Or.inr ⟨_, make_message_id _ _ _ _ _, rfl, rfl⟩⟩


theorem BookingsOk_eq {db db2 : DB} (h1 : db2.bookings = db.bookings)
    (h2 : db2.nextBookingId = db.nextBookingId) (h : BookingsOk db) :
    BookingsOk db2 := by
  rw [BookingsOk, h1, h2]
  exact h

theorem BookingsOk_append {db db2 : DB} {rk : BookingRequest}
    (h : BookingsOk db) (hm : db2.bookings = db.bookings ++ [rk])
    (hid : rk.id = db.nextBookingId)
    (hc : db2.nextBookingId = db.nextBookingId + 1) : BookingsOk db2 := by
  obtain ⟨hnd, hbd⟩ := h
  constructor
  · rw [hm, List.map_append, List.nodup_append]
    refine ⟨hnd, List.nodup_singleton _, ?_⟩
    intro x hx hx2
    obtain ⟨r0, hr0, rfl⟩ := List.mem_map.mp hx
    have hlt := hbd r0 hr0
    have hxeq : r0.id = rk.id := by simpa using hx2
    omega
  · rw [hm, hc]
    intro r hr
    rcases List.mem_append.mp hr with hl | hrr
    · exact Nat.lt_succ_of_lt (hbd r hl)
    · rw [List.mem_singleton.mp hrr, hid]
      exact Nat.lt_succ_self _

theorem MsgIdsOrdered_eq {db db2 : DB} (hm : db2.messages = db.messages)
    (hc : db2.nextMsgId = db.nextMsgId) (h : MsgIdsOrdered db) :
    MsgIdsOrdered db2 := by
  rw [MsgIdsOrdered, hm, hc]
  exact h

theorem MsgIdsOrdered_append {db db2 : DB} {m : Message}
    (h : MsgIdsOrdered db) (hid : m.id = db.nextMsgId)
    (hm : db2.messages = db.messages ++ [m])
    (hc : db2.nextMsgId = db.nextMsgId + 1) : MsgIdsOrdered db2 := by
  obtain ⟨hpw, hbd⟩ := h
  constructor
  · rw [hm, List.pairwise_append]
    refine ⟨hpw, List.pairwise_singleton _ _, ?_⟩
    intro x hx y hy
    rw [List.mem_singleton.mp hy, hid]
    exact hbd x hx
  · rw [hm, hc]
    intro x hx
    rcases List.mem_append.mp hx with hl | hrr
    · exact Nat.lt_succ_of_lt (hbd x hl)
    · rw [List.mem_singleton.mp hrr, hid]
      exact Nat.lt_succ_self _

theorem MsgIdsOrdered_map {db db2 : DB} {cv : Conversation} {a : Nat}
    (hm : db2.messages = db.messages.map (markReadFlag cv a))
    (hc : db2.nextMsgId = db.nextMsgId) (h : MsgIdsOrdered db) :
    MsgIdsOrdered db2 := by
  obtain ⟨hpw, hbd⟩ := h
  constructor
  · rw [hm, List.pairwise_map]
    refine hpw.imp ?_
    intro x y hxy
    rw [markReadFlag_id, markReadFlag_id]
    exact hxy
  · rw [hm, hc]
    intro x hx
    obtain ⟨x0, hx0, rfl⟩ := List.mem_map.mp hx
    rw [markReadFlag_id]
    exact hbd x0 hx0

theorem applyOp_nonpending (db : DB) (op : Op) (b : BookingRequest)
    (hok : BookingsOk db) (hmem : b ∈ db.bookings)
    (hnp : b.status ≠ .pending) :
    b ∈ (applyOp db op).bookings ∧ BookingsOk (applyOp db op) := by
  cases op with
  | tick t => exact ⟨hmem, hok⟩
  | startConvo a r s =>
    obtain ⟨h1, h2, _⟩ := start_conversation_effects db a r s
    exact ⟨h1.symm ▸ hmem, BookingsOk_eq h1 h2 hok⟩
  | postMsg a c s =>
    obtain ⟨h1, h2, _⟩ := post_message_effects db a c s
    exact ⟨h1.symm ▸ hmem, BookingsOk_eq h1 h2 hok⟩
  | viewConvo a c =>
    obtain ⟨h1, h2, _, _⟩ := view_get_effects db a c
    exact ⟨h1.symm ▸ hmem, BookingsOk_eq h1 h2 hok⟩
  | requestBooking a l =>
    obtain ⟨_, _, hshape⟩ := request_booking_effects db a l
    rcases hshape with ⟨h1, h2⟩ | ⟨rk, hid, h1, h2⟩
    · exact ⟨h1.symm ▸ hmem, BookingsOk_eq h1 h2 hok⟩
    · constructor
      · show b ∈ (request_booking db a l).1.bookings
        rw [h1]
        exact List.mem_append_left _ hmem
      · exact BookingsOk_append hok h1 hid h2
  | respondBooking a bid act =>
    obtain ⟨hcnt, hshape, _⟩ := respond_booking_effects db a bid act
    rcases hshape with h1 | ⟨bk, li, hfb, hpd, hfl, hmap⟩
    · exact ⟨h1.symm ▸ hmem, BookingsOk_eq h1 hcnt hok⟩
    · have hbkmem : bk ∈ db.bookings := (findBooking_eq hfb).1
      have hbne : (b.id == bk.id) = false := by
        simp only [beq_eq_false_iff_ne, ne_eq]
        intro h
        exact hnp (by
          rw [bookings_eq_of_same_id hok.1 hmem hbkmem h]
          exact hpd)
      have hsb : (b.status == BStatus.pending) = false := by
        simpa using hnp
      rcases hmap with hm | hm
      · have hfr : acceptUpdate bk.id li.id b = b := by
          simp [acceptUpdate, hbne, hsb]
        refine ⟨?_, ?_, ?_⟩
        · show b ∈ (respond_booking db a bid act).1.bookings
          rw [hm]
          exact hfr ▸ List.mem_map_of_mem _ hmem
        · show (((respond_booking db a bid act).1.bookings).map
              (fun r => r.id)).Nodup
          rw [hm, List.map_map]
          have hcong : db.bookings.map
              ((fun r : BookingRequest => r.id) ∘ acceptUpdate bk.id li.id)
              = db.bookings.map (fun r => r.id) :=
            List.map_congr_left (fun r _ => acceptUpdate_id _ _ r)
          rw [hcong]
          exact hok.1
        · show ∀ r ∈ (respond_booking db a bid act).1.bookings,
            r.id < (respond_booking db a bid act).1.nextBookingId
          rw [hm, hcnt]
          intro r hr
          obtain ⟨r0, hr0, rfl⟩ := List.mem_map.mp hr
          rw [acceptUpdate_id]
          exact hok.2 r0 hr0
      · have hfr : (if (b.id == bk.id) = true then
            { b with status := BStatus.declined } else b) = b := by
          simp [hbne]
        refine ⟨?_, ?_, ?_⟩
        · show b ∈ (respond_booking db a bid act).1.bookings
          rw [hm]
          exact hfr ▸ List.mem_map_of_mem _ hmem
        · show (((respond_booking db a bid act).1.bookings).map
              (fun r => r.id)).Nodup
          rw [hm, List.map_map]
          have hcong : db.bookings.map
              ((fun r : BookingRequest => r.id) ∘ fun r =>
                if r.id == bk.id then { r with status := BStatus.declined }
                else r)
              = db.bookings.map (fun r => r.id) :=
            List.map_congr_left (fun r _ => by
              by_cases h : (r.id == bk.id) = true <;>
                simp [Function.comp, h])
          rw [hcong]
          exact hok.1
        · show ∀ r ∈ (respond_booking db a bid act).1.bookings,
            r.id < (respond_booking db a bid act).1.nextBookingId
          rw [hm, hcnt]
          intro r hr
          obtain ⟨r0, hr0, rfl⟩ := List.mem_map.mp hr
          have hi : (if (r0.id == bk.id) = true then
              { r0 with status := BStatus.declined } else r0).id = r0.id := by
            by_cases h : (r0.id == bk.id) = true <;> simp [h]
          rw [hi]
          exact hok.2 r0 hr0

/-! ## Claim theorems -/

/-- C9: `mark_conversation_read(convo, userId)` sets the read flag of
`userId`'s participant slot to true on every message of the
conversation, and applying it twice in a row yields exactly the same
state as applying it once. -/
theorem mark_read_sets_slot_and_idempotent (db : DB) (c : Conversation)
    (uid : Nat) (hp : uid = c.user1_id ∨ uid = c.user2_id) :
    (∀ m ∈ (mark_conversation_read db c uid).messages,
        m.conversation_id = c.id →
          (uid = c.user1_id → m.read_by_user1 = true) ∧
          (uid ≠ c.user1_id → m.read_by_user2 = true)) ∧
    mark_conversation_read (mark_conversation_read db c uid) c uid =
      mark_conversation_read db c uid := by
  constructor
  · intro m hm hcid
    obtain ⟨m0, _, rfl⟩ := List.mem_map.mp hm
    have hcid0 : m0.conversation_id = c.id := by
      by_cases h : m0.conversation_id = c.id <;>
        by_cases hs : c.user1_id = uid <;>
          simpa [markReadFlag, sender_is_user1, h, hs] using hcid
    constructor
    · intro hu
      simp [markReadFlag, sender_is_user1, hcid0, hu.symm]
    · intro hu
      have : (c.user1_id == uid) = false := by
        simpa using fun h => hu h.symm
      simp [markReadFlag, sender_is_user1, hcid0, this]
  · have h : (db.messages.map (markReadFlag c uid)).map (markReadFlag c uid)
        = db.messages.map (markReadFlag c uid) := by
      rw [List.map_map]
      exact List.map_congr_left (fun m _ => markReadFlag_idem c uid m)
    simp only [mark_conversation_read]
    rw [h]

/-- Witness for C9 at a concrete store: user 2 marks conversation 100
read. -/
theorem mark_read_sets_slot_and_idempotent_witness :
    (∀ m ∈ (mark_conversation_read dbMsgs convAB 2).messages,
        m.conversation_id = convAB.id →
          (2 = convAB.user1_id → m.read_by_user1 = true) ∧
          (2 ≠ convAB.user1_id → m.read_by_user2 = true)) ∧
    mark_conversation_read (mark_conversation_read dbMsgs convAB 2)
        convAB 2 =
      mark_conversation_read dbMsgs convAB 2 :=
  mark_read_sets_slot_and_idempotent dbMsgs convAB 2 (by decide)

/-- C8: a message created by the posting operation carries the sender's
own read flag true and the other participant's flag false, according to
the sender's slot. -/
theorem post_message_read_flags (db : DB) (actor cid : Nat)
    (c : Conversation) (raw : String)
    (hc : findConvo db cid = some c)
    (hp : is_participant c actor = true)
    (h1 : (pyStrip raw).length ≠ 0)
    (h2 : ¬MAX_MESSAGE_LENGTH < (pyStrip raw).length) :
    ∃ m, (post_message db actor cid raw).1.messages =
        db.messages ++ [m] ∧
      m.sender_id = actor ∧
      (actor = c.user1_id →
        m.read_by_user1 = true ∧ m.read_by_user2 = false) ∧
      (actor ≠ c.user1_id →
        m.read_by_user1 = false ∧ m.read_by_user2 = true) := by
  refine ⟨(make_message c actor (pyStrip raw) db.nextMsgId db.now).1,
    (post_message_success db actor cid c raw hc hp h1 h2).2, ?_, ?_, ?_⟩
  · by_cases hs : c.user1_id = actor <;>
      simp [make_message, sender_is_user1, hs]
  · intro hu
    simp [make_message, sender_is_user1, hu.symm]
  · intro hu
    have : (c.user1_id == actor) = false := by
      simpa using fun h => hu h.symm
    simp [make_message, sender_is_user1, this]

/-- Witness for C8: user 2 (the second participant) posts "yo there"
into conversation 100. -/
theorem post_message_read_flags_witness :
    ∃ m, (post_message dbMsgs 2 100 "yo there").1.messages =
        dbMsgs.messages ++ [m] ∧
      m.sender_id = 2 ∧
      (2 = convAB.user1_id →
        m.read_by_user1 = true ∧ m.read_by_user2 = false) ∧
      (2 ≠ convAB.user1_id →
        m.read_by_user1 = false ∧ m.read_by_user2 = true) :=
  post_message_read_flags dbMsgs 2 100 convAB "yo there" (by decide)
    (by decide) (by decide) (by decide)

/-- C4: for distinct users the pair conversation is unique: one call
returns a conversation stored with the smaller id in the first slot
(creating it exactly when the pair had none), and every later call in
either argument order returns that same conversation with no further
change to the store. -/
theorem getOrCreate_pair_unique (db : DB) (x y : Nat) (hxy : x ≠ y) :
    ∃ c db1, get_or_create_conversation db x y = (db1, .ok c) ∧
      c.user1_id = min x y ∧ c.user2_id = max x y ∧
      get_or_create_conversation db1 x y = (db1, .ok c) ∧
      get_or_create_conversation db1 y x = (db1, .ok c) ∧
      (findConvoPair db (min x y) (max x y) = none →
        db1.conversations = db.conversations ++ [c]) := by
  have hxyb : (x == y) = false := by simpa using hxy
  have hyxb : (y == x) = false := by simpa using Ne.symm hxy
  cases hfind : findConvoPair db (min x y) (max x y) with
  | some c =>
    obtain ⟨_, h1, h2⟩ := findConvoPair_eq hfind
    refine ⟨c, db, ?_, h1, h2, ?_, ?_, ?_⟩
    · simp [get_or_create_conversation, hxyb, hfind]
    · simp [get_or_create_conversation, hxyb, hfind]
    · simp [get_or_create_conversation, hyxb, Nat.min_comm y x,
        Nat.max_comm y x, hfind]
    · intro h
      simp at h
  | none =>
    have hfind2 : findConvoPair
        { db with
            conversations := db.conversations ++
              [{ id := db.nextConvoId, user1_id := min x y,
                 user2_id := max x y, created_at := db.now,
                 last_message_at := db.now }],
            nextConvoId := db.nextConvoId + 1 }
        (min x y) (max x y) = some
          { id := db.nextConvoId, user1_id := min x y,
            user2_id := max x y, created_at := db.now,
            last_message_at := db.now } := by
      unfold findConvoPair at hfind ⊢
      rw [List.find?_append, hfind]
      simp
    refine ⟨{ id := db.nextConvoId, user1_id := min x y,
              user2_id := max x y, created_at := db.now,
              last_message_at := db.now },
            { db with
                conversations := db.conversations ++
                  [{ id := db.nextConvoId, user1_id := min x y,
                     user2_id := max x y, created_at := db.now,
                     last_message_at := db.now }],
                nextConvoId := db.nextConvoId + 1 },
            ?_, rfl, rfl, ?_, ?_, fun _ => rfl⟩
    · simp [get_or_create_conversation, hxyb, hfind]
    · simp [get_or_create_conversation, hxyb, hfind2]
    · simp [get_or_create_conversation, hyxb, Nat.min_comm y x,
        Nat.max_comm y x, hfind2]

/-- Witness for C4: users 1 and 3 have no conversation in `dbW`; the
call creates one and later calls in both orders return it. -/
theorem getOrCreate_pair_unique_witness :
    ∃ c db1, get_or_create_conversation dbW 1 3 = (db1, .ok c) ∧
      c.user1_id = min 1 3 ∧ c.user2_id = max 1 3 ∧
      get_or_create_conversation db1 1 3 = (db1, .ok c) ∧
      get_or_create_conversation db1 3 1 = (db1, .ok c) ∧
      (findConvoPair dbW (min 1 3) (max 1 3) = none →
        db1.conversations = dbW.conversations ++ [c]) :=
  getOrCreate_pair_unique dbW 1 3 (by decide)

/-- C6: posting succeeds exactly when the stripped body has between 1
and `MAX_MESSAGE_LENGTH = 1000` characters; an empty or over-long
stripped body is rejected with a validation error and writes nothing. -/
theorem post_message_length_boundary (db : DB) (actor cid : Nat)
    (c : Conversation) (raw : String)
    (hc : findConvo db cid = some c)
    (hp : is_participant c actor = true) :
    (1 ≤ (pyStrip raw).length →
      (pyStrip raw).length ≤ MAX_MESSAGE_LENGTH →
      (post_message db actor cid raw).2 = none ∧
      ∃ m, (post_message db actor cid raw).1.messages =
          db.messages ++ [m] ∧ m.body = pyStrip raw) ∧
    ((pyStrip raw).length = 0 ∨
        MAX_MESSAGE_LENGTH < (pyStrip raw).length →
      post_message db actor cid raw = (db, some .validationError)) := by
  constructor
  · intro h1 h2
    have h1' : (pyStrip raw).length ≠ 0 := by omega
    have h2' : ¬MAX_MESSAGE_LENGTH < (pyStrip raw).length := by omega
    obtain ⟨hres, hmsgs⟩ := post_message_success db actor cid c raw hc hp
      h1' h2'
    refine ⟨hres, (make_message c actor (pyStrip raw) db.nextMsgId
      db.now).1, hmsgs, ?_⟩
    by_cases hs : c.user1_id = actor <;>
      simp [make_message, sender_is_user1, hs]
  · intro h
    rcases h with h0 | hbig
    · have hb : ((pyStrip raw).length == 0) = true := by simpa using h0
      simp [post_message, hc, hp, hb]
    · have hb : ((pyStrip raw).length == 0) = false := by
        simp
        omega
      simp [post_message, hc, hp, hb, hbig]

/-- Witness for C6 at the boundary: a 1000-character body is accepted
and a 1001-character body is rejected, in conversation 100 of
`dbMsgs`. -/
theorem post_message_length_boundary_witness :
    ((post_message dbMsgs 1 100 body1000).2 = none ∧
      ∃ m, (post_message dbMsgs 1 100 body1000).1.messages =
          dbMsgs.messages ++ [m] ∧ m.body = pyStrip body1000) ∧
    post_message dbMsgs 1 100 body1001 =
      (dbMsgs, some .validationError) :=
  ⟨(post_message_length_boundary dbMsgs 1 100 convAB body1000
      (by decide) (by decide)).1 (by decide) (by decide),
   (post_message_length_boundary dbMsgs 1 100 convAB body1001
      (by decide) (by decide)).2 (by decide)⟩

/-- C5: when a booking request for the pair (listing, requester)
already exists in any status, a second request fails with a conflict
and leaves the store untouched (no new booking, message or
notification). -/
theorem request_duplicate_conflict (db : DB) (actor lid : Nat)
    (u : UserRec) (li : Listing) (o : Nat)
    (hu : findUser db actor = some u)
    (hli : findListing db lid = some li)
    (ho : li.profile_user_id = some o)
    (hne : o ≠ actor)
    (hdup : ∃ r ∈ db.bookings,
      r.listing_id = li.id ∧ r.requester_id = actor) :
    request_booking db actor lid = (db, some .conflict) := by
  have hob : (o == actor) = false := by simpa using hne
  have hany : (db.bookings.any fun r =>
      r.listing_id == li.id && r.requester_id == actor) = true := by
    rw [List.any_eq_true]
    obtain ⟨r, hr, h1, h2⟩ := hdup
    exact ⟨r, hr, by simp [h1, h2]⟩
  by_cases ha : li.is_archived
  · simp [request_booking, hu, hli, ha]
  · simp [request_booking, hu, hli, ha, ho, hob, hany]

/-- Witness for C5: user 1 already has the pending booking `bk1` on
listing 10, so a second request conflicts and changes nothing. -/
theorem request_duplicate_conflict_witness :
    request_booking dbBook 1 10 = (dbBook, some .conflict) :=
  request_duplicate_conflict dbBook 1 10 userA listW 2 (by decide)
    (by decide) (by decide) (by decide)
    ⟨bk1, by decide, by decide, by decide⟩

/-- C2 counterexample: user 1 successfully requests listing 10 in
`dbW`, yet afterwards the store contains no message at all — the
request path accepts no initial body and posts nothing into the
conversation, contradicting the claimed "one Message from the
requester". -/
theorem request_posts_no_message_cex :
    (request_booking dbW 1 10).2 = none ∧
    (request_booking dbW 1 10).1.messages = [] := by
  decide

/-- C2 amended: a successful booking request yields the
owner-requester conversation, an unread notification for the owner and
a pending booking request tied to that conversation — but no message
(the implementation accepts no initial body). -/
theorem request_success_effects (db : DB) (actor lid : Nat)
    (u : UserRec) (li : Listing) (o : Nat)
    (hu : findUser db actor = some u)
    (hli : findListing db lid = some li)
    (ha : li.is_archived = false)
    (ho : li.profile_user_id = some o)
    (hne : o ≠ actor)
    (hnodup : (db.bookings.any fun r =>
        r.listing_id == li.id && r.requester_id == actor) = false) :
    (request_booking db actor lid).2 = none ∧
    ∃ c, (c ∈ (request_booking db actor lid).1.conversations ∧
        c.user1_id = min actor o ∧ c.user2_id = max actor o) ∧
      (request_booking db actor lid).1.messages = db.messages ∧
      (∃ n, (request_booking db actor lid).1.notifications =
          db.notifications ++ [n] ∧ n.recipient_id = o ∧
          n.listing_id = li.id ∧ n.is_read = false) ∧
      (∃ r, (request_booking db actor lid).1.bookings =
          db.bookings ++ [r] ∧ r.listing_id = li.id ∧
          r.requester_id = actor ∧ r.status = .pending ∧
          r.conversation_id = c.id) := by
  have hob : (o == actor) = false := by simpa using hne
  have haob : (actor == o) = false := by simpa using Ne.symm hne
  cases hgoc : findConvoPair db (min actor o) (max actor o) with
  | some c =>
    obtain ⟨hmem, h1, h2⟩ := findConvoPair_eq hgoc
    have heq : request_booking db actor lid =
        ({ db with
            bookings := db.bookings ++
              [{ id := db.nextBookingId, listing_id := li.id,
                 requester_id := actor, conversation_id := c.id,
                 status := .pending }],
            notifications := db.notifications ++
              [{ id := db.nextNotifId, listing_id := li.id,
                 recipient_id := o,
                 message := u.username ++
                   " would like to book your event.",
                 is_read := false }],
            nextBookingId := db.nextBookingId + 1,
            nextNotifId := db.nextNotifId + 1 }, none) := by
      simp [request_booking, get_or_create_conversation, hu, hli, ha, ho,
        hob, haob, hnodup, hgoc]
    rw [heq]
    exact ⟨rfl, c, ⟨hmem, h1, h2⟩, rfl,
      ⟨_, rfl, rfl, rfl, rfl⟩, ⟨_, rfl, rfl, rfl, rfl, rfl⟩⟩
  | none =>
    have heq : request_booking db actor lid =
        ({ db with
            conversations := db.conversations ++
              [{ id := db.nextConvoId, user1_id := min actor o,
                 user2_id := max actor o, created_at := db.now,
                 last_message_at := db.now }],
            nextConvoId := db.nextConvoId + 1,
            bookings := db.bookings ++
              [{ id := db.nextBookingId, listing_id := li.id,
                 requester_id := actor,
                 conversation_id := db.nextConvoId,
                 status := .pending }],
            notifications := db.notifications ++
              [{ id := db.nextNotifId, listing_id := li.id,
                 recipient_id := o,
                 message := u.username ++
                   " would like to book your event.",
                 is_read := false }],
            nextBookingId := db.nextBookingId + 1,
            nextNotifId := db.nextNotifId + 1 }, none) := by
      simp [request_booking, get_or_create_conversation, hu, hli, ha, ho,
        hob, haob, hnodup, hgoc]
    rw [heq]
    exact ⟨rfl,
      Conversation.mk db.nextConvoId (min actor o) (max actor o) db.now
        db.now,
      ⟨List.mem_append_right _ (List.mem_singleton.mpr rfl), rfl, rfl⟩,
      rfl, ⟨_, rfl, rfl, rfl, rfl⟩, ⟨_, rfl, rfl, rfl, rfl, rfl⟩⟩

/-- C1: accepting one of a listing's pending booking requests marks
exactly that one accepted, declines every other request of the listing,
and archives the listing. -/
theorem respond_accept_exclusive (db : DB) (actor bid : Nat)
    (b : BookingRequest) (li : Listing) (c : Conversation)
    (hids : (db.bookings.map (fun r => r.id)).Nodup)
    (hb : findBooking db bid = some b)
    (hli : findListing db b.listing_id = some li)
    (ho : li.profile_user_id = some actor)
    (hc : findConvo db b.conversation_id = some c)
    (hpendAll : ∀ r ∈ db.bookings, r.listing_id = b.listing_id →
      r.status = .pending) :
    (respond_booking db actor bid .accept).2 = none ∧
    ((respond_booking db actor bid .accept).1.bookings.countP fun r =>
      r.listing_id == b.listing_id && r.status == BStatus.accepted) = 1 ∧
    (∀ r ∈ (respond_booking db actor bid .accept).1.bookings,
      r.listing_id = b.listing_id → r.id ≠ bid →
      r.status = .declined) ∧
    (∀ l ∈ (respond_booking db actor bid .accept).1.listings,
      l.id = b.listing_id → l.is_archived = true) := by
  obtain ⟨hbmem, hbid⟩ := findBooking_eq hb
  obtain ⟨_, hliid⟩ := findListing_eq hli
  have hpend : b.status = .pending := hpendAll b hbmem rfl
  obtain ⟨hok, hbk, hls⟩ := respond_accept_success db actor bid b li c hb
    hli ho hpend hc
  refine ⟨hok, ?_, ?_, ?_⟩
  · rw [hbk, List.countP_map]
    have key : ∀ r ∈ db.bookings,
        ((fun r => r.listing_id == b.listing_id &&
          r.status == BStatus.accepted) ∘ acceptUpdate b.id li.id) r =
        (r.id == b.id) := by
      intro r hr
      by_cases h1 : r.id = b.id
      · have heq : r = b := bookings_eq_of_same_id hids hr hbmem h1
        subst heq
        simp [acceptUpdate]
      · have h1b : (r.id == b.id) = false := by simpa using h1
        by_cases h2 : r.listing_id = li.id
        · have hpr : r.status = BStatus.pending :=
            hpendAll r hr (by rw [h2, hliid])
          simp [acceptUpdate, h1b, h2, hpr]
        · have h2b : (r.listing_id == li.id) = false := by simpa using h2
          have h2c : (r.listing_id == b.listing_id) = false := by
            rw [← hliid]
            exact h2b
          simp [acceptUpdate, h1b, h2b, h2c]
    rw [List.countP_congr (fun r hr => by rw [key r hr])]
    have hmemid : b.id ∈ db.bookings.map (fun r => r.id) :=
      List.mem_map_of_mem _ hbmem
    calc List.countP (fun r => r.id == b.id) db.bookings
        = List.count b.id (db.bookings.map (fun r => r.id)) := by
          rw [List.count_eq_countP, List.countP_map]
          rfl
      _ = 1 := List.count_eq_one_of_mem hids hmemid
  · intro r' hr' hlst hid
    rw [hbk] at hr'
    obtain ⟨r, hr, rfl⟩ := List.mem_map.mp hr'
    rw [acceptUpdate_id] at hid
    rw [acceptUpdate_listing] at hlst
    have h1b : (r.id == b.id) = false := by
      simpa using fun h => hid (h.trans hbid)
    have hpr : r.status = BStatus.pending := hpendAll r hr hlst
    have h2 : r.listing_id = li.id := by rw [hlst, hliid]
    simp [acceptUpdate, h1b, h2, hpr]
  · intro l' hl' hlid
    rw [hls] at hl'
    obtain ⟨l, hl, rfl⟩ := List.mem_map.mp hl'
    by_cases h : l.id = li.id
    · simp [h]
    · have hbeq : (l.id == li.id) = false := by simpa using h
      simp only [hbeq, Bool.false_eq_true, if_false] at hlid ⊢
      exact absurd (hlid.trans hliid.symm) h

/-- Witness for C1: owner 2 accepts booking 50 of listing 10 in
`dbBook`, which has the two pending bookings `bk1` and `bk2`. -/
theorem respond_accept_exclusive_witness :
    (respond_booking dbBook 2 50 .accept).2 = none ∧
    ((respond_booking dbBook 2 50 .accept).1.bookings.countP fun r =>
      r.listing_id == bk1.listing_id &&
        r.status == BStatus.accepted) = 1 ∧
    (∀ r ∈ (respond_booking dbBook 2 50 .accept).1.bookings,
      r.listing_id = bk1.listing_id → r.id ≠ 50 →
      r.status = .declined) ∧
    (∀ l ∈ (respond_booking dbBook 2 50 .accept).1.listings,
      l.id = bk1.listing_id → l.is_archived = true) :=
  respond_accept_exclusive dbBook 2 50 bk1 listW convAB (by decide)
    (by decide) (by decide) (by decide) (by decide) (by decide)

/-- C10: accepting a booking only touches the bookings of its own
listing, and among those only the pending ones other than the accepted
booking, which become declined; different-listing bookings and
already-settled same-listing bookings survive unchanged. -/
theorem respond_accept_frame (db : DB) (actor bid : Nat)
    (b : BookingRequest) (li : Listing) (c : Conversation)
    (hids : (db.bookings.map (fun r => r.id)).Nodup)
    (hb : findBooking db bid = some b)
    (hli : findListing db b.listing_id = some li)
    (ho : li.profile_user_id = some actor)
    (hpend : b.status = .pending)
    (hc : findConvo db b.conversation_id = some c) :
    (∀ r ∈ db.bookings, r.listing_id ≠ b.listing_id →
      r ∈ (respond_booking db actor bid .accept).1.bookings) ∧
    (∀ r ∈ db.bookings, r.listing_id = b.listing_id →
      r.status ≠ .pending →
      r ∈ (respond_booking db actor bid .accept).1.bookings) ∧
    (∀ r ∈ db.bookings, r.id ≠ b.id → r.listing_id = b.listing_id →
      r.status = .pending →
      { r with status := BStatus.declined } ∈
        (respond_booking db actor bid .accept).1.bookings) := by
  obtain ⟨hbmem, hbid⟩ := findBooking_eq hb
  obtain ⟨_, hliid⟩ := findListing_eq hli
  obtain ⟨_, hbk, _⟩ := respond_accept_success db actor bid b li c hb
    hli ho hpend hc
  refine ⟨?_, ?_, ?_⟩
  · intro r hr hne
    have h1 : r.id ≠ b.id := fun h =>
      hne (by rw [bookings_eq_of_same_id hids hr hbmem h])
    have h1b : (r.id == b.id) = false := by simpa using h1
    have h2b : (r.listing_id == li.id) = false := by
      rw [hliid]
      simpa using hne
    have hfr : acceptUpdate b.id li.id r = r := by
      simp [acceptUpdate, h1b, h2b]
    rw [hbk]
    exact hfr ▸ List.mem_map_of_mem _ hr
  · intro r hr _ hnp
    have h1 : r.id ≠ b.id := fun h =>
      hnp (by rw [bookings_eq_of_same_id hids hr hbmem h]; exact hpend)
    have h1b : (r.id == b.id) = false := by simpa using h1
    have hsb : (r.status == BStatus.pending) = false := by simpa using hnp
    have hfr : acceptUpdate b.id li.id r = r := by
      simp [acceptUpdate, h1b, hsb]
    rw [hbk]
    exact hfr ▸ List.mem_map_of_mem _ hr
  · intro r hr h1 heq hp
    have h1b : (r.id == b.id) = false := by simpa using h1
    have h2 : r.listing_id = li.id := heq.trans hliid.symm
    have hfr : acceptUpdate b.id li.id r =
        { r with status := BStatus.declined } := by
      simp [acceptUpdate, h1b, h2, hp]
    rw [hbk]
    exact hfr ▸ List.mem_map_of_mem _ hr

/-- Witness for C10 in `dbBook`: accepting booking 50 maps the
competing pending booking `bk2` to its declined copy. -/
theorem respond_accept_frame_witness :
    (∀ r ∈ dbBook.bookings, r.listing_id ≠ bk1.listing_id →
      r ∈ (respond_booking dbBook 2 50 .accept).1.bookings) ∧
    (∀ r ∈ dbBook.bookings, r.listing_id = bk1.listing_id →
      r.status ≠ .pending →
      r ∈ (respond_booking dbBook 2 50 .accept).1.bookings) ∧
    (∀ r ∈ dbBook.bookings, r.id ≠ bk1.id →
      r.listing_id = bk1.listing_id → r.status = .pending →
      { r with status := BStatus.declined } ∈
        (respond_booking dbBook 2 50 .accept).1.bookings) :=
  respond_accept_frame dbBook 2 50 bk1 listW convAB (by decide)
    (by decide) (by decide) (by decide) (by decide) (by decide)

/-- Witness for C2's amended theorem: user 3 requests listing 10 in
`dbW`. -/
theorem request_success_effects_witness :
    (request_booking dbW 3 10).2 = none ∧
    ∃ c, (c ∈ (request_booking dbW 3 10).1.conversations ∧
        c.user1_id = min 3 2 ∧ c.user2_id = max 3 2) ∧
      (request_booking dbW 3 10).1.messages = dbW.messages ∧
      (∃ n, (request_booking dbW 3 10).1.notifications =
          dbW.notifications ++ [n] ∧ n.recipient_id = 2 ∧
          n.listing_id = listW.id ∧ n.is_read = false) ∧
      (∃ r, (request_booking dbW 3 10).1.bookings =
          dbW.bookings ++ [r] ∧ r.listing_id = listW.id ∧
          r.requester_id = 3 ∧ r.status = .pending ∧
          r.conversation_id = c.id) :=
  request_success_effects dbW 3 10 userC listW 2 (by decide) (by decide)
    (by decide) (by decide) (by decide) (by decide)

/-- C3: `accepted` and `declined` are terminal.  Responding to a
non-pending booking is rejected as a conflict ("already handled") and
leaves the whole store untouched, and no sequence of operations ever
changes a booking that is out of `pending`. -/
theorem respond_terminal_statuses :
    (∀ (db : DB) (bid : Nat) (act : BAction) (b : BookingRequest)
        (li : Listing) (o : Nat),
      findBooking db bid = some b → b.status ≠ .pending →
      findListing db b.listing_id = some li →
      li.profile_user_id = some o →
      respond_booking db o bid act = (db, some .conflict)) ∧
    (∀ (ops : List Op) (db : DB) (b : BookingRequest),
      BookingsOk db → b ∈ db.bookings → b.status ≠ .pending →
      b ∈ (runOps db ops).bookings) := by
  constructor
  · intro db bid act b li o hfb hnp hfl ho
    have hsb : (b.status == BStatus.pending) = false := by simpa using hnp
    simp [respond_booking, hfb, hfl, ho, hsb]
  · intro ops
    induction ops with
    | nil =>
      intro db b _ hmem _
      exact hmem
    | cons op rest ih =>
      intro db b hok hmem hnp
      obtain ⟨hm2, hok2⟩ := applyOp_nonpending db op b hok hmem hnp
      exact ih (applyOp db op) b hok2 hm2 hnp

/-- Witness for C3: re-responding to the accepted booking 60 conflicts
and changes nothing; the booking survives a further operation
sequence. -/
theorem respond_terminal_statuses_witness :
    respond_booking dbTerm 2 60 .accept = (dbTerm, some .conflict) ∧
    bk3 ∈ (runOps dbTerm
      [Op.respondBooking 2 60 BAction.accept, Op.tick 3,
       Op.requestBooking 1 10]).bookings :=
  ⟨respond_terminal_statuses.1 dbTerm 60 .accept bk3 listX 2 (by decide)
      (by decide) (by decide) (by decide),
   respond_terminal_statuses.2
      [Op.respondBooking 2 60 BAction.accept, Op.tick 3,
       Op.requestBooking 1 10] dbTerm bk3
      ⟨by decide, by decide⟩ (by decide) (by decide)⟩

/-- C7: the query at `app.py` line 1634 orders by `created_at` alone,
with no id tie-break.  On conversation 100 of `dbMsgs`, whose two
messages share a timestamp, both insertion orders satisfy everything
the query requires, and the id-reversed order violates the claimed
time-then-id ordering: the code does not guarantee the claimed
tie-break. -/
theorem listByConversation_tie_unspecified :
    listByConversationSpec dbMsgs 100 [msgW1, msgW2] ∧
    listByConversationSpec dbMsgs 100 [msgW2, msgW1] ∧
    msgW1.created_at = msgW2.created_at ∧ msgW1.id < msgW2.id ∧
    ¬ List.Pairwise lexLT [msgW2, msgW1] := by
  refine ⟨⟨by decide, by decide⟩, ⟨by decide, by decide⟩, rfl,
    by decide, ?_⟩
  intro h
  have h0 := (List.pairwise_cons.mp h).1 msgW1 (List.mem_singleton.mpr rfl)
  rcases h0 with h1 | ⟨_, h2⟩
  · exact absurd h1 (by decide)
  · exact absurd h2 (by decide)


end DJHub
